import Mathlib

/-!
Shallow embedding of `src/panel/graph_panel/services/analytic_service.ts`
(hastic-grafana-app). The service mediates requests between a Grafana panel
and a Hastic server: a request dispatcher with error classification, a
connection-health monitor with cross-instance alert de-duplication through a
process-wide registry keyed by endpoint URL, and polling-sequence factories.

Modelling conventions:
- The Angular `$http` transport is a parameter `http : RequestObject π → HttpOutcome α`;
  a resolved promise carries `response.data : α`, a rejection carries the
  error object's `xhrStatus`, numeric `status` and `statusText` fields.
- `window.hasticDatasourcesAvailability` is `WindowState := Option Registry`
  (`none` models the property not yet existing on `window`).
- `appEvents.emit` calls are collected in an event list, in emission order.
- Mutation of `this` is explicit state passing of `ServiceState`.
- A JS value that may be `undefined` is an `Option`.
-/

namespace AnalyticSvc

/-- `HasticDatasourceAvailability` enum: `AVAILABLE = 'success'`,
`NOT_AVAILABLE = 'error'`. -/
inductive HasticDatasourceAvailability where
  | AVAILABLE
  | NOT_AVAILABLE
deriving DecidableEq, Repr

/-- String value of the enum member, as used in the `alert-${status}` event
name. -/
def availabilityValue : HasticDatasourceAvailability → String
  | HasticDatasourceAvailability.AVAILABLE => "success"
  | HasticDatasourceAvailability.NOT_AVAILABLE => "error"

/-- `HasticDatasourceStatus` record of the service instance. -/
structure HasticDatasourceStatus where
  testing : Bool
  availability : HasticDatasourceAvailability
  message : String
deriving DecidableEq, Repr

/-- Mutable per-instance state of `AnalyticService`: the public
`hasticDatasourceStatus` record and the private `_isUp` flag. -/
structure ServiceState where
  hasticDatasourceStatus : HasticDatasourceStatus
  isUp : Bool
deriving DecidableEq, Repr

/-- Field initializers of `AnalyticService` (lines 39-45). -/
def initialServiceState : ServiceState :=
  { hasticDatasourceStatus :=
      { testing := false
        availability := HasticDatasourceAvailability.NOT_AVAILABLE
        message := "" }
    isUp := false }

/-- The `_hasticDatasourceURL` constructor argument: a JS value that may be
`undefined`, `null` or a string. -/
inductive UrlValue where
  | undef
  | null
  | str (s : String)
deriving DecidableEq, Repr

/-- JS string coercion of the URL value (only the `str` case is reachable on
paths that interpolate it after the config check). -/
def urlValueString : UrlValue → String
  | UrlValue.undef => "undefined"
  | UrlValue.null => "null"
  | UrlValue.str s => s

/-- Constructor (lines 47-54): throws `TypeError` iff the URL is strictly
`undefined`; any other value (including `null` and `""`) is accepted and the
field initializers run. -/
def mkAnalyticService (urlv : UrlValue) : Except String (UrlValue × ServiceState) :=
  if urlv = UrlValue.undef then
    Except.error "_hasticDatasourceURL is undefined"
  else
    Except.ok (urlv, initialServiceState)

/-- Process-wide registry `window.hasticDatasourcesAvailability`, a JS object
keyed by endpoint URL. -/
abbrev Registry := List (String × HasticDatasourceAvailability)

/-- `none` models `window` not yet having the `hasticDatasourcesAvailability`
property. -/
abbrev WindowState := Option Registry

/-- JS property read `window.hasticDatasourcesAvailability[url]` (`none` =
`hasOwnProperty` false). -/
def lookupUrl (reg : Registry) (url : String) : Option HasticDatasourceAvailability :=
  (reg.find? (fun p => p.1 == url)).map Prod.snd

/-- JS property write `window.hasticDatasourcesAvailability[url] = status`. -/
def insertUrl (reg : Registry) (url : String)
    (status : HasticDatasourceAvailability) : Registry :=
  (url, status) :: reg.filter (fun p => p.1 != url)

/-- `appEvents.emit` calls observable at this layer. -/
inductive Event where
  | alert (status : HasticDatasourceAvailability) (message : List String)
  | alertWarning (message : List String)
  | statusChanged (url : String)
deriving DecidableEq, Repr

/-- `_updateHasticUrlStatus` (lines 422-436): lazily creates the registry,
records `status` under this instance's URL and reports whether the recorded
value changed (a first observation for the URL counts as changed). Emits
`hastic-datasource-status-changed` when an existing entry changes. -/
def updateHasticUrlStatus (url : String) (status : HasticDatasourceAvailability)
    (w : WindowState) : Bool × WindowState × List Event :=
  let reg := w.getD []
  match lookupUrl reg url with
  | none => (true, some (insertUrl reg url status), [])
  | some prev =>
    if prev ≠ status then
      (true, some (insertUrl reg url status), [Event.statusChanged url])
    else
      (false, some reg, [])

/-- Output of `_displayConnectionAlert`: new instance status record, new
window state, emitted events. -/
structure AlertResult where
  status : HasticDatasourceStatus
  window : WindowState
  events : List Event
deriving DecidableEq, Repr

/-- `_displayConnectionAlert` (lines 402-416): unconditionally overwrites the
instance's `availability` and `message`, records the status in the registry,
and emits the user-visible `alert-${status}` event only when the recorded
value changed. -/
def displayConnectionAlert (url : String) (status : HasticDatasourceAvailability)
    (message : List String) (st : HasticDatasourceStatus) (w : WindowState) :
    AlertResult :=
  let st1 := { st with
    availability := status
    message := String.intercalate "<br /> " message }
  let u := updateHasticUrlStatus url status w
  if u.1 then
    { status := st1, window := u.2.1, events := u.2.2 ++ [Event.alert status message] }
  else
    { status := st1, window := u.2.1, events := u.2.2 }

/-- Message of `_displayNoConnectionAlert` (lines 366-372). -/
def noConnectionMessage (dsUrl statusText : String) : List String :=
  ["No connection to Hastic Server. Status: " ++ statusText,
   "Hastic Datasource URL: \"" ++ dsUrl ++ "\""]

/-- `_displayNoConnectionAlert` (lines 366-372). -/
def displayNoConnectionAlert (dsUrl statusText : String)
    (st : HasticDatasourceStatus) (w : WindowState) : AlertResult :=
  displayConnectionAlert dsUrl HasticDatasourceAvailability.NOT_AVAILABLE
    (noConnectionMessage dsUrl statusText) st w

/-- Message of `_displayConnectionTimeoutAlert` (lines 374-380). -/
def connectionTimeoutMessage (dsUrl statusText : String) : List String :=
  ["Timeout when connecting to Hastic Server. Status: " ++ statusText,
   "Hastic Datasource URL: \"" ++ dsUrl ++ "\""]

/-- `_displayConnectionTimeoutAlert` (lines 374-380). -/
def displayConnectionTimeoutAlert (dsUrl statusText : String)
    (st : HasticDatasourceStatus) (w : WindowState) : AlertResult :=
  displayConnectionAlert dsUrl HasticDatasourceAvailability.NOT_AVAILABLE
    (connectionTimeoutMessage dsUrl statusText) st w

/-- Message of `displayWrongUrlAlert` (lines 382-388). -/
def wrongUrlMessage (dsUrl : String) : List String :=
  ["Please check Hastic Server URL",
   "Something is working at \"" ++ dsUrl ++ "\" but it\u0027s not Hastic Server"]

/-- `displayWrongUrlAlert` (lines 382-388). -/
def displayWrongUrlAlert (dsUrl : String) (st : HasticDatasourceStatus)
    (w : WindowState) : AlertResult :=
  displayConnectionAlert dsUrl HasticDatasourceAvailability.NOT_AVAILABLE
    (wrongUrlMessage dsUrl) st w

/-- Message of `displayUnsupportedVersionAlert` (lines 390-396);
`supported` stands for the `SUPPORTED_SERVER_VERSION` constant imported from
`utils`, whose value lives outside this module. -/
def unsupportedVersionMessage (dsUrl actual supported : String) : List String :=
  ["Unsupported Hastic Server version",
   "Hastic Server at \"" ++ dsUrl ++ "\" has unsupported version (got " ++ actual
     ++ ", should be " ++ supported ++ ")"]

/-- `displayUnsupportedVersionAlert` (lines 390-396). -/
def displayUnsupportedVersionAlert (dsUrl actual supported : String)
    (st : HasticDatasourceStatus) (w : WindowState) : AlertResult :=
  displayConnectionAlert dsUrl HasticDatasourceAvailability.NOT_AVAILABLE
    (unsupportedVersionMessage dsUrl actual supported) st w

/-- Angular `$http` rejection value: `xhrStatus` is one of `'complete'`,
`'error'`, `'timeout'`, `'abort'`; `status` is the numeric HTTP status
(`-1` is the abort sentinel). -/
structure HttpError where
  xhrStatus : String
  status : Int
  statusText : String
deriving DecidableEq, Repr

/-- Outcome of one `$http(requestObject)` call: a resolved response whose
`data` field is `α`, or a rejection. -/
inductive HttpOutcome (α : Type) where
  | success (data : α)
  | failure (error : HttpError)
deriving DecidableEq, Repr

/-- The `requestObject` built by `_analyticRequest` (lines 300-305): payload
goes to `params` for GET/DELETE and to `data` otherwise. -/
structure RequestObject (π : Type) where
  method : String
  url : String
  params : Option π
  data : Option π
deriving DecidableEq, Repr

/-- Lines 300-305 of `_analyticRequest` (`method` already upper-cased). -/
def buildRequestObject {π : Type} (method url : String) (data : Option π) :
    RequestObject π :=
  if method = "GET" ∨ method = "DELETE" then
    { method := method, url := url, params := data, data := none }
  else
    { method := method, url := url, params := none, data := data }

/-- How one dispatcher (or operation) call ends: `resolved d` is a normal
return of the JS value `d` (`resolved none` = the async function resolved to
`undefined`); `raised st msg` is a thrown error, `st` the optional `status`
field of the thrown value (`new Error(...)` carries none). -/
inductive RequestResult (α : Type) where
  | resolved (data : Option α)
  | raised (status : Option Int) (msg : String)
deriving DecidableEq, Repr

/-- Full observable outcome of a dispatcher-backed call. -/
structure DispatchResult (α : Type) where
  result : RequestResult α
  svc : ServiceState
  window : WindowState
  events : List Event
deriving DecidableEq, Repr

/-- `_analyticRequest` (lines 296-330). On transport success: `isUp := true`,
resolve with `response.data`. On rejection: if the transport did not complete
(`xhrStatus ≠ 'complete'`) or `status > 500`, display a timeout alert (status
504 or the abort sentinel -1) or the generic no-connection alert, set
`isUp := false` and throw `Error` with the fetching-error text; otherwise
(`complete` and `status ≤ 500`) set `isUp := true` and fall off the catch,
resolving to `undefined`. Note line 315 appends `error.statusText` to the
unrelated global `status` (a slip), so `statusText` stays the bare numeric
status in messages. -/
def analyticRequest {α π : Type} (dsUrl : String)
    (http : RequestObject π → HttpOutcome α)
    (method url : String) (data : Option π)
    (svc : ServiceState) (w : WindowState) : DispatchResult α :=
  let m := method.toUpper
  let requestObject := buildRequestObject m (dsUrl ++ url) data
  match http requestObject with
  | HttpOutcome.success respData =>
    { result := RequestResult.resolved (some respData)
      svc := { svc with isUp := true }
      window := w
      events := [] }
  | HttpOutcome.failure error =>
    if error.xhrStatus ≠ "complete" ∨ error.status > 500 then
      let statusText := toString error.status
      let a :=
        if error.status = 504 ∨ error.status = -1 then
          displayConnectionTimeoutAlert dsUrl statusText svc.hasticDatasourceStatus w
        else
          displayNoConnectionAlert dsUrl statusText svc.hasticDatasourceStatus w
      { result := RequestResult.raised none ("Fetching error: " ++ statusText)
        svc := { hasticDatasourceStatus := a.status, isUp := false }
        window := a.window
        events := a.events }
    else
      { result := RequestResult.resolved none
        svc := { svc with isUp := true }
        window := w
        events := [] }

/-- `get` wrapper (lines 350-352). -/
def getReq {α π : Type} (dsUrl : String) (http : RequestObject π → HttpOutcome α)
    (url : String) (params : Option π) (svc : ServiceState) (w : WindowState) :
    DispatchResult α :=
  analyticRequest dsUrl http "GET" url params svc w

/-- `post` wrapper (lines 354-356). -/
def postReq {α π : Type} (dsUrl : String) (http : RequestObject π → HttpOutcome α)
    (url : String) (data : Option π) (svc : ServiceState) (w : WindowState) :
    DispatchResult α :=
  analyticRequest dsUrl http "POST" url data svc w

/-- `patch` wrapper (lines 358-360). -/
def patchReq {α π : Type} (dsUrl : String) (http : RequestObject π → HttpOutcome α)
    (url : String) (data : Option π) (svc : ServiceState) (w : WindowState) :
    DispatchResult α :=
  analyticRequest dsUrl http "PATCH" url data svc w

/-- `delete` wrapper (lines 362-364). -/
def deleteReq {α π : Type} (dsUrl : String) (http : RequestObject π → HttpOutcome α)
    (url : String) (data : Option π) (svc : ServiceState) (w : WindowState) :
    DispatchResult α :=
  analyticRequest dsUrl http "DELETE" url data svc w

/-- Root (`GET /`) response fields this layer reads; `packageVersion` is the
only one the health monitor interpolates into an alert. -/
structure ServerResponse where
  packageVersion : String
deriving DecidableEq, Repr

/-- Message of `_checkDatasourceConfig`'s warning (lines 338-344). -/
def configMissingMessage : List String :=
  ["Hastic Datasource is missing",
   "Please setup Hastic Datasource. More info: https://github.com/hastic/hastic-grafana-app/wiki/Getting-started"]

/-- `_checkDatasourceConfig` (lines 336-348): `false` (with an
`alert-warning` emission) iff the URL is `null`, `undefined` or `''`. -/
def checkDatasourceConfig (urlv : UrlValue) : Bool × List Event :=
  if urlv = UrlValue.null ∨ urlv = UrlValue.undef ∨ urlv = UrlValue.str "" then
    (false, [Event.alertWarning configMissingMessage])
  else
    (true, [])

/-- Outcome of an availability probe: boolean result plus the states and
events it left behind. -/
structure ProbeResult where
  result : Bool
  svc : ServiceState
  window : WindowState
  events : List Event
deriving DecidableEq, Repr

/-- `_isDatasourceAvailable` (lines 122-147). The `isHasticServerResponse`
and `isSupportedServerVersion` predicates come from `utils` (outside this
module) and are taken as parameters, applied to the possibly-`undefined`
root response; `supported` stands for `SUPPORTED_SERVER_VERSION`. A raised
dispatcher error is caught (`console.error`) and yields `false`. -/
def isDatasourceAvailable (urlv : UrlValue)
    (isHasticServerResponse isSupportedServerVersion : Option ServerResponse → Bool)
    (supported : String)
    (http : RequestObject Unit → HttpOutcome ServerResponse)
    (svc : ServiceState) (w : WindowState) : ProbeResult :=
  let cfg := checkDatasourceConfig urlv
  if ¬ cfg.1 then
    { result := false, svc := svc, window := w, events := cfg.2 }
  else
    let dsUrl := urlValueString urlv
    let r := getReq dsUrl http "/" (none : Option Unit) svc w
    match r.result with
    | RequestResult.raised _ _ =>
      { result := false, svc := r.svc, window := r.window, events := r.events }
    | RequestResult.resolved response =>
      if ¬ isHasticServerResponse response then
        let a := displayWrongUrlAlert dsUrl r.svc.hasticDatasourceStatus r.window
        { result := false
          svc := { r.svc with hasticDatasourceStatus := a.status }
          window := a.window
          events := r.events ++ a.events }
      else if ¬ isSupportedServerVersion response then
        let actual := (response.map ServerResponse.packageVersion).getD "undefined"
        let a := displayUnsupportedVersionAlert dsUrl actual supported
          r.svc.hasticDatasourceStatus r.window
        { result := false
          svc := { r.svc with hasticDatasourceStatus := a.status }
          window := a.window
          events := r.events ++ a.events }
      else
        let message := ["Connected to Hastic Datasource",
                        "Hastic datasource URL: \"" ++ dsUrl ++ "\""]
        let a := displayConnectionAlert dsUrl HasticDatasourceAvailability.AVAILABLE
          message r.svc.hasticDatasourceStatus r.window
        { result := true
          svc := { r.svc with hasticDatasourceStatus := a.status }
          window := a.window
          events := r.events ++ a.events }

/-- `checkDatasourceAvailability` (lines 276-283): set `testing := true`, run
the probe, store its result in `_isUp`, set `testing := false`, return the
result. -/
def checkDatasourceAvailability (urlv : UrlValue)
    (isHasticServerResponse isSupportedServerVersion : Option ServerResponse → Bool)
    (supported : String)
    (http : RequestObject Unit → HttpOutcome ServerResponse)
    (svc : ServiceState) (w : WindowState) : ProbeResult :=
  let svc1 : ServiceState :=
    { svc with hasticDatasourceStatus :=
        { svc.hasticDatasourceStatus with testing := true } }
  let p := isDatasourceAvailable urlv isHasticServerResponse
    isSupportedServerVersion supported http svc1 w
  { result := p.result
    svc := { hasticDatasourceStatus := { p.svc.hasticDatasourceStatus with testing := false }
             isUp := p.result }
    window := p.window
    events := p.events }

/-- `AnalyticSegment` fields this layer reads (`from`/`to` are Lean keywords,
hence the underscores). -/
structure AnalyticSegment where
  id : String
  from_ : Int
  to_ : Int
  labeled : Bool
  deleted : Bool
deriving DecidableEq, Repr

/-- One element of the `addedSegments` payload (lines 154-159). -/
structure SegmentJson where
  from_ : Int
  to_ : Int
  labeled : Bool
  deleted : Bool
deriving DecidableEq, Repr

/-- `getJSONs` (lines 154-159). -/
def getJSONs (segs : List AnalyticSegment) : List SegmentJson :=
  segs.map (fun s => { from_ := s.from_, to_ := s.to_, labeled := s.labeled
                       deleted := s.deleted })

/-- The combined `PATCH /segments` payload (lines 161-165). -/
structure UpdateSegmentsPayload where
  id : String
  addedSegments : List SegmentJson
  removedSegments : List String
deriving DecidableEq, Repr

/-- `PATCH /segments` response: the `addedIds` field may be absent. -/
structure AddedIdsResponse where
  addedIds : Option (List String)
deriving DecidableEq, Repr

/-- `updateSegments` (lines 149-172): serialize added segments fully and
removed segments as bare ids, send one PATCH, require `addedIds` in the
response. Reading `addedIds` off an `undefined` response is the JS
`TypeError` path. -/
def updateSegments (dsUrl : String)
    (http : RequestObject UpdateSegmentsPayload → HttpOutcome AddedIdsResponse)
    (id : String) (addedSegments removedSegments : List AnalyticSegment)
    (svc : ServiceState) (w : WindowState) : DispatchResult (List String) :=
  let payload : UpdateSegmentsPayload :=
    { id := id
      addedSegments := getJSONs addedSegments
      removedSegments := removedSegments.map AnalyticSegment.id }
  let r := patchReq dsUrl http "/segments" (some payload) svc w
  match r.result with
  | RequestResult.raised st m =>
    { result := RequestResult.raised st m, svc := r.svc, window := r.window
      events := r.events }
  | RequestResult.resolved none =>
    { result := RequestResult.raised none
        "TypeError: cannot read properties of undefined"
      svc := r.svc, window := r.window, events := r.events }
  | RequestResult.resolved (some respData) =>
    match respData.addedIds with
    | none =>
      { result := RequestResult.raised none "Server didn`t send addedIds"
        svc := r.svc, window := r.window, events := r.events }
    | some ids =>
      { result := RequestResult.resolved (some ids), svc := r.svc
        window := r.window, events := r.events }

/-- `GET /detections/spans` response: the `spans` field may be absent;
the span payload shape `σ` is opaque at this layer. -/
structure SpansResponse (σ : Type) where
  spans : Option (List σ)
deriving DecidableEq, Repr

/-- The `{ id, from, to }` payload of `getDetectionSpans` (line 178). -/
structure SpansPayload where
  id : String
  from_ : Int
  to_ : Int
deriving DecidableEq, Repr

/-- `getDetectionSpans` (lines 174-184): raises on `undefined` id before any
request; raises when the response is `undefined` or has no `spans` field. -/
def getDetectionSpans {σ : Type} (dsUrl : String)
    (http : RequestObject SpansPayload → HttpOutcome (SpansResponse σ))
    (id : Option String) (from_ to_ : Int)
    (svc : ServiceState) (w : WindowState) : DispatchResult (List σ) :=
  match id with
  | none =>
    { result := RequestResult.raised none "id is undefined", svc := svc
      window := w, events := [] }
  | some i =>
    let payload : SpansPayload := { id := i, from_ := from_, to_ := to_ }
    let r := getReq dsUrl http "/detections/spans" (some payload) svc w
    match r.result with
    | RequestResult.raised st m =>
      { result := RequestResult.raised st m, svc := r.svc, window := r.window
        events := r.events }
    | RequestResult.resolved respData =>
      match respData with
      | none =>
        { result := RequestResult.raised none "Server didn`t return spans array"
          svc := r.svc, window := r.window, events := r.events }
      | some resp =>
        match resp.spans with
        | none =>
          { result := RequestResult.raised none "Server didn`t return spans array"
            svc := r.svc, window := r.window, events := r.events }
        | some spans =>
          { result := RequestResult.resolved (some spans), svc := r.svc
            window := r.window, events := r.events }

/-- One element of the `GET /segments` response array (line 201). -/
structure SegmentDto where
  id : String
  from_ : Int
  to_ : Int
  labeled : Bool
  deleted : Bool
deriving DecidableEq, Repr

/-- `GET /segments` response: the `segments` field may be absent. -/
structure SegmentsResponse where
  segments : Option (List SegmentDto)
deriving DecidableEq, Repr

/-- The `{ id, from?, to? }` payload of `getSegments` (lines 190-196). -/
structure SegmentsPayload where
  id : String
  from_ : Option Int
  to_ : Option Int
deriving DecidableEq, Repr

/-- `getSegments` (lines 186-203): raises on `undefined` id before any
request; `new AnalyticSegment(s.labeled, s.id, s.from, s.to, s.deleted)` on
each element when `segments` is present, raises otherwise. Reading
`segments` off an `undefined` response is the JS `TypeError` path. -/
def getSegments (dsUrl : String)
    (http : RequestObject SegmentsPayload → HttpOutcome SegmentsResponse)
    (id : Option String) (from_ to_ : Option Int)
    (svc : ServiceState) (w : WindowState) : DispatchResult (List AnalyticSegment) :=
  match id with
  | none =>
    { result := RequestResult.raised none "id is undefined", svc := svc
      window := w, events := [] }
  | some i =>
    let payload : SegmentsPayload := { id := i, from_ := from_, to_ := to_ }
    let r := getReq dsUrl http "/segments" (some payload) svc w
    match r.result with
    | RequestResult.raised st m =>
      { result := RequestResult.raised st m, svc := r.svc, window := r.window
        events := r.events }
    | RequestResult.resolved none =>
      { result := RequestResult.raised none
          "TypeError: cannot read properties of undefined"
        svc := r.svc, window := r.window, events := r.events }
    | RequestResult.resolved (some respData) =>
      match respData.segments with
      | none =>
        { result := RequestResult.raised none "Server didn`t return segments array"
          svc := r.svc, window := r.window, events := r.events }
      | some segs =>
        { result := RequestResult.resolved (some (segs.map (fun s =>
            { id := s.id, from_ := s.from_, to_ := s.to_, labeled := s.labeled
              deleted := s.deleted : AnalyticSegment })))
          svc := r.svc, window := r.window, events := r.events }

/-- Error raised out of a polling-sequence run. -/
inductive GenError (E : Type) where
  | idUndefined
  | fetchError (e : E)
deriving DecidableEq, Repr

/-- Helper for `getGeneratorRun`: with a defined id, produce up to `n`
elements by calling `func` before each; a fetch error aborts the run.
Returns the produced prefix (or the error) and the number of `func`
invocations. The inter-element `setTimeout(duration)` suspension has no
observable effect on values and is not modelled. -/
def genLoop {T E : Type} (i : String) (func : String → Except E T) :
    Nat → Except (GenError E) (List T) × Nat
  | 0 => (Except.ok [], 0)
  | n + 1 =>
    match func i with
    | Except.error e => (Except.error (GenError.fetchError e), 1)
    | Except.ok t =>
      let r := genLoop i func n
      ((r.1.map (fun ts => t :: ts)), r.2 + 1)

/-- `getGenerator` (lines 440-458) observed through its first `n` iteration
steps: the body throws `id is undefined` before yielding anything (and before
any `func` call) when `id` is `undefined`; otherwise each step yields
`await func(id, ...args)` and then sleeps `duration` ms; the loop never
terminates on its own (`n` truncates the infinite sequence for observation).
The second component counts `func` invocations. -/
def getGeneratorRun {T E : Type} (id : Option String) (duration : Nat)
    (func : String → Except E T) (n : Nat) :
    Except (GenError E) (List T) × Nat :=
  match id, duration with
  | none, _ => (Except.error GenError.idUndefined, 0)
  | some i, _ => genLoop i func n

/-- `GET /analyticUnits/status` response body. -/
structure StatusResponse where
  status : String
  errorMessage : Option String
deriving DecidableEq, Repr

/-- The `{ id }` query payload of the status poll (line 214). -/
structure StatusPayload where
  id : String
deriving DecidableEq, Repr

/-- The fetch function `getStatusGenerator` passes to `getGenerator`
(lines 212-221): `try { return this.get('/analyticUnits/status', { id }); }
catch(error) { if (error.status === 404) return { status: '404' }; throw }`.
The catch is modelled as if the returned promise were awaited (the source
returns it un-awaited, so the catch actually never observes a rejection);
either way the 404 branch compares the thrown value's `status` field with
404. -/
def getStatusGeneratorFetch (dsUrl : String)
    (http : RequestObject StatusPayload → HttpOutcome StatusResponse)
    (id : String) (svc : ServiceState) (w : WindowState) :
    DispatchResult StatusResponse :=
  let sentinel : StatusResponse := { status := "404", errorMessage := none }
  let r := getReq dsUrl http "/analyticUnits/status"
    (some ({ id := id } : StatusPayload)) svc w
  match r.result with
  | RequestResult.raised st m =>
    if st = some 404 then
      { r with result := RequestResult.resolved (some sentinel) }
    else
      { r with result := RequestResult.raised st m }
  | _ => r

/-- Message of the connectivity alert `_analyticRequest` raises for a
transport error `e`: timeout wording for status 504 or the abort sentinel -1,
generic no-connection wording otherwise. -/
def connectivityAlertMessage (dsUrl : String) (e : HttpError) : List String :=
  if e.status = 504 ∨ e.status = -1 then
    connectionTimeoutMessage dsUrl (toString e.status)
  else
    noConnectionMessage dsUrl (toString e.status)

/-- Number of user-visible `alert-${status}` emissions in an event list. -/
def countAlertEvents (evs : List Event) : Nat :=
  evs.countP (fun ev => match ev with
    | Event.alert _ _ => true
    | _ => false)

theorem displayConnectionAlert_status_fields (url : String)
    (status : HasticDatasourceAvailability) (message : List String)
    (st : HasticDatasourceStatus) (w : WindowState) :
    (displayConnectionAlert url status message st w).status =
      { st with availability := status
                message := String.intercalate "<br /> " message } := by
  simp only [displayConnectionAlert, updateHasticUrlStatus]
  rcases lookupUrl (w.getD []) url with _ | prev
  · rfl
  · by_cases hps : prev = status <;> simp [hps]

theorem displayConnectionAlert_alert_mem (url : String)
    (status : HasticDatasourceAvailability) (message : List String)
    (st : HasticDatasourceStatus) (w : WindowState)
    (h : lookupUrl (w.getD []) url ≠ some status) :
    Event.alert status message ∈ (displayConnectionAlert url status message st w).events := by
  rcases hl : lookupUrl (w.getD []) url with _ | prev
  · simp [displayConnectionAlert, updateHasticUrlStatus, hl]
  · have hps : prev ≠ status := fun h2 => h (by rw [hl, h2])
    simp [displayConnectionAlert, updateHasticUrlStatus, hl, hps]

theorem countAlert_displayConnectionAlert (url : String)
    (status : HasticDatasourceAvailability) (message : List String)
    (st : HasticDatasourceStatus) (w : WindowState) :
    countAlertEvents (displayConnectionAlert url status message st w).events =
      if lookupUrl (w.getD []) url = some status then 0 else 1 := by
  rcases hl : lookupUrl (w.getD []) url with _ | prev
  · simp [displayConnectionAlert, updateHasticUrlStatus, hl, countAlertEvents]
  · by_cases hps : prev = status
    · subst hps
      simp [displayConnectionAlert, updateHasticUrlStatus, hl, countAlertEvents]
    · simp [displayConnectionAlert, updateHasticUrlStatus, hl, hps, countAlertEvents]

theorem lookupUrl_insertUrl_self (reg : Registry) (url : String)
    (status : HasticDatasourceAvailability) :
    lookupUrl (insertUrl reg url status) url = some status := by
  simp [lookupUrl, insertUrl, List.find?]

theorem displayConnectionAlert_window_of_absent (url : String)
    (status : HasticDatasourceAvailability) (message : List String)
    (st : HasticDatasourceStatus) (w : WindowState)
    (hl : lookupUrl (w.getD []) url = none) :
    (displayConnectionAlert url status message st w).window =
      some (insertUrl (w.getD []) url status) := by
  simp [displayConnectionAlert, updateHasticUrlStatus, hl]

/-- C9: a polling sequence created through `getGenerator` with an `undefined`
id fails with the `id is undefined` error before producing any element, for
any duration, fetch function and number of observed iteration steps, and the
fetch function is invoked zero times. -/
theorem getGenerator_undefined_id_fails {T E : Type} (duration : Nat)
    (func : String → Except E T) (n : Nat) :
    getGeneratorRun (T := T) (E := E) none duration func n =
      (Except.error GenError.idUndefined, 0) := rfl

/-- C10: `_displayConnectionAlert` unconditionally overwrites the instance's
`hasticDatasourceStatus.availability` and `.message` with the value being
recorded (joined with the HTML break separator), whatever the registry
previously held — so the recorded status reflects the most recent result even
when the dedup suppresses the user-visible notification — and leaves the
`testing` flag untouched. -/
theorem connectionAlert_always_records_status (url : String)
    (status : HasticDatasourceAvailability) (message : List String)
    (st : HasticDatasourceStatus) (w : WindowState) :
    (displayConnectionAlert url status message st w).status.availability = status ∧
    (displayConnectionAlert url status message st w).status.message =
      String.intercalate "<br /> " message ∧
    (displayConnectionAlert url status message st w).status.testing = st.testing := by
  rw [displayConnectionAlert_status_fields]
  exact ⟨rfl, rfl, rfl⟩

/-- C6: a connection-alert call emits the user-visible notification iff the
recorded availability differs from the registry's previous value for this
endpoint (a first recording always counts as a change); in particular, the
number of visible notifications is 1 on a change and 0 otherwise, and two
instances sharing one endpoint that record the same result starting from an
endpoint with no registry entry produce exactly one visible notification
overall, whichever instance state and message each one carries. -/
theorem connectionAlert_dedup (url : String)
    (status : HasticDatasourceAvailability) (message : List String)
    (st : HasticDatasourceStatus) (w : WindowState) :
    (Event.alert status message ∈ (displayConnectionAlert url status message st w).events ↔
      lookupUrl (w.getD []) url ≠ some status) ∧
    countAlertEvents (displayConnectionAlert url status message st w).events =
      (if lookupUrl (w.getD []) url = some status then 0 else 1) ∧
    (lookupUrl (w.getD []) url = none →
      ∀ (st2 : HasticDatasourceStatus) (message2 : List String),
        countAlertEvents (displayConnectionAlert url status message st w).events +
          countAlertEvents (displayConnectionAlert url status message2 st2
            (displayConnectionAlert url status message st w).window).events = 1) := by
  refine ⟨?_, countAlert_displayConnectionAlert url status message st w, ?_⟩
  · constructor
    · intro hmem hl
      simp [displayConnectionAlert, updateHasticUrlStatus, hl] at hmem
    · exact displayConnectionAlert_alert_mem url status message st w
  · intro hl st2 message2
    rw [countAlert_displayConnectionAlert, countAlert_displayConnectionAlert,
      displayConnectionAlert_window_of_absent url status message st w hl, hl]
    simp [lookupUrl_insertUrl_self]

/-- C6 witness: concrete two-instance run on a fresh registry — the first
call emits the single visible alert and the second is deduplicated. -/
theorem connectionAlert_dedup_witness :
    lookupUrl ((none : WindowState).getD []) "http://hastic" = none ∧
    countAlertEvents (displayConnectionAlert "http://hastic"
        HasticDatasourceAvailability.AVAILABLE ["m1"]
        initialServiceState.hasticDatasourceStatus none).events +
      countAlertEvents (displayConnectionAlert "http://hastic"
        HasticDatasourceAvailability.AVAILABLE ["m2"]
        { testing := true
          availability := HasticDatasourceAvailability.NOT_AVAILABLE
          message := "x" }
        (displayConnectionAlert "http://hastic"
          HasticDatasourceAvailability.AVAILABLE ["m1"]
          initialServiceState.hasticDatasourceStatus none).window).events = 1 :=
  ⟨rfl,
   (connectionAlert_dedup "http://hastic" HasticDatasourceAvailability.AVAILABLE
      ["m1"] initialServiceState.hasticDatasourceStatus none).2.2 rfl
      { testing := true
        availability := HasticDatasourceAvailability.NOT_AVAILABLE
        message := "x" } ["m2"]⟩

/-- C5 counterexample: the constructor accepts the empty-string endpoint (and
the `null` endpoint) without throwing, refuting the claim that an unset or
empty endpoint always fails construction. -/
theorem constructor_accepts_empty_and_null :
    mkAnalyticService (UrlValue.str "") =
      Except.ok (UrlValue.str "", initialServiceState) ∧
    mkAnalyticService UrlValue.null =
      Except.ok (UrlValue.null, initialServiceState) := by
  exact ⟨rfl, rfl⟩

/-- C5 amended: construction fails (throws `TypeError`) before any request iff
the endpoint URL is strictly `undefined`; `null` and empty-string endpoints
construct successfully (they are only rejected later by the configuration
check of the availability probe). -/
theorem constructor_fails_iff_undefined (urlv : UrlValue) :
    (∃ m, mkAnalyticService urlv = Except.error m) ↔ urlv = UrlValue.undef := by
  cases urlv <;> simp [mkAnalyticService]

/-- The alert call the dispatcher's connectivity-failure branch performs. -/
def connectivityFailureAlert (dsUrl : String) (e : HttpError)
    (svc : ServiceState) (w : WindowState) : AlertResult :=
  displayConnectionAlert dsUrl HasticDatasourceAvailability.NOT_AVAILABLE
    (connectivityAlertMessage dsUrl e) svc.hasticDatasourceStatus w

theorem analyticRequest_failure_eq {α π : Type} (dsUrl : String)
    (http : RequestObject π → HttpOutcome α) (method url : String)
    (data : Option π) (svc : ServiceState) (w : WindowState) (e : HttpError)
    (hfail : http (buildRequestObject method.toUpper (dsUrl ++ url) data) =
      HttpOutcome.failure e)
    (hconn : e.xhrStatus ≠ "complete" ∨ e.status > 500) :
    analyticRequest dsUrl http method url data svc w =
      ⟨RequestResult.raised none ("Fetching error: " ++ toString e.status),
       ⟨(connectivityFailureAlert dsUrl e svc w).status, false⟩,
       (connectivityFailureAlert dsUrl e svc w).window,
       (connectivityFailureAlert dsUrl e svc w).events⟩ := by
  simp only [analyticRequest, hfail]
  rw [if_pos hconn]
  simp only [displayConnectionTimeoutAlert, displayNoConnectionAlert,
    connectivityFailureAlert, connectivityAlertMessage]
  by_cases h5 : e.status = 504 ∨ e.status = -1
  · rw [if_pos h5, if_pos h5]
  · rw [if_neg h5, if_neg h5]

theorem analyticRequest_suppressed_eq {α π : Type} (dsUrl : String)
    (http : RequestObject π → HttpOutcome α) (method url : String)
    (data : Option π) (svc : ServiceState) (w : WindowState) (e : HttpError)
    (hfail : http (buildRequestObject method.toUpper (dsUrl ++ url) data) =
      HttpOutcome.failure e)
    (hcomp : e.xhrStatus = "complete") (hle : e.status ≤ 500) :
    analyticRequest dsUrl http method url data svc w =
      { result := RequestResult.resolved none
        svc := { svc with isUp := true }
        window := w
        events := [] } := by
  have hcond : ¬ (e.xhrStatus ≠ "complete" ∨ e.status > 500) := by
    push_neg
    exact ⟨hcomp, hle⟩
  simp only [analyticRequest, hfail]
  rw [if_neg hcond]

/-- C1: for every verb and path, a transport failure whose transport did not
complete (`xhrStatus ≠ 'complete'`) or whose HTTP status exceeds 500 makes
`_analyticRequest` raise the fetching error (the call does not resolve
normally), set `isUp := false`, and run the connectivity alert — timeout
wording when the status is 504 or the abort sentinel -1, generic
no-connection wording otherwise — recording it unconditionally in the
instance status and emitting the user-visible alert whenever the registry
dedup does not suppress it. -/
theorem analyticRequest_connectivity_failure {α π : Type} (dsUrl : String)
    (http : RequestObject π → HttpOutcome α) (method url : String)
    (data : Option π) (svc : ServiceState) (w : WindowState) (e : HttpError)
    (hfail : http (buildRequestObject method.toUpper (dsUrl ++ url) data) =
      HttpOutcome.failure e)
    (hconn : e.xhrStatus ≠ "complete" ∨ e.status > 500) :
    (analyticRequest dsUrl http method url data svc w).result =
      RequestResult.raised none ("Fetching error: " ++ toString e.status) ∧
    (analyticRequest dsUrl http method url data svc w).svc.isUp = false ∧
    (analyticRequest dsUrl http method url data svc w).svc.hasticDatasourceStatus.availability =
      HasticDatasourceAvailability.NOT_AVAILABLE ∧
    (analyticRequest dsUrl http method url data svc w).svc.hasticDatasourceStatus.message =
      String.intercalate "<br /> " (connectivityAlertMessage dsUrl e) ∧
    (lookupUrl (w.getD []) dsUrl ≠ some HasticDatasourceAvailability.NOT_AVAILABLE →
      Event.alert HasticDatasourceAvailability.NOT_AVAILABLE
        (connectivityAlertMessage dsUrl e) ∈
          (analyticRequest dsUrl http method url data svc w).events) := by
  rw [analyticRequest_failure_eq dsUrl http method url data svc w e hfail hconn]
  refine ⟨rfl, rfl, ?_, ?_, ?_⟩
  · simp only [connectivityFailureAlert, displayConnectionAlert_status_fields]
  · simp only [connectivityFailureAlert, displayConnectionAlert_status_fields]
  · intro hne
    exact displayConnectionAlert_alert_mem dsUrl
      HasticDatasourceAvailability.NOT_AVAILABLE
      (connectivityAlertMessage dsUrl e) svc.hasticDatasourceStatus w hne

/-- C1 witness: a concrete aborted request (xhrStatus `'timeout'`, status -1)
raises, clears `isUp` and records the timeout-wording connectivity alert. -/
theorem analyticRequest_connectivity_failure_witness :
    (("timeout" : String) ≠ "complete" ∨ ((-1 : Int) > 500)) ∧
    (analyticRequest "http://hastic"
        (fun _ : RequestObject Unit => (HttpOutcome.failure
          { xhrStatus := "timeout", status := -1, statusText := "" } : HttpOutcome Unit))
        "GET" "/x" none initialServiceState none).result =
      RequestResult.raised none "Fetching error: -1" ∧
    (analyticRequest "http://hastic"
        (fun _ : RequestObject Unit => (HttpOutcome.failure
          { xhrStatus := "timeout", status := -1, statusText := "" } : HttpOutcome Unit))
        "GET" "/x" none initialServiceState none).svc.isUp = false :=
  ⟨Or.inl (by decide),
   (analyticRequest_connectivity_failure "http://hastic" _ "GET" "/x" none
      initialServiceState none
      { xhrStatus := "timeout", status := -1, statusText := "" }
      rfl (Or.inl (by decide))).1,
   (analyticRequest_connectivity_failure "http://hastic" _ "GET" "/x" none
      initialServiceState none
      { xhrStatus := "timeout", status := -1, statusText := "" }
      rfl (Or.inl (by decide))).2.1⟩

/-- C2: for every verb and path, a transport error whose transport completed
(`xhrStatus = 'complete'`) with status at most 500 is swallowed: the call
resolves to `undefined` instead of propagating the server-side error, the
per-instance `isUp` flag is set to `true`, and nothing else changes (no alert
is emitted and the registry is untouched). -/
theorem analyticRequest_suppressed_server_error {α π : Type} (dsUrl : String)
    (http : RequestObject π → HttpOutcome α) (method url : String)
    (data : Option π) (svc : ServiceState) (w : WindowState) (e : HttpError)
    (hfail : http (buildRequestObject method.toUpper (dsUrl ++ url) data) =
      HttpOutcome.failure e)
    (hcomp : e.xhrStatus = "complete") (hle : e.status ≤ 500) :
    (analyticRequest dsUrl http method url data svc w).result =
      RequestResult.resolved none ∧
    (analyticRequest dsUrl http method url data svc w).svc =
      { svc with isUp := true } ∧
    (analyticRequest dsUrl http method url data svc w).events = [] ∧
    (analyticRequest dsUrl http method url data svc w).window = w := by
  rw [analyticRequest_suppressed_eq dsUrl http method url data svc w e hfail hcomp hle]
  exact ⟨rfl, rfl, rfl, rfl⟩

/-- C2 witness: a concrete completed 404 resolves to `undefined` with
`isUp = true`. -/
theorem analyticRequest_suppressed_server_error_witness :
    (("complete" : String) = "complete") ∧ ((404 : Int) ≤ 500) ∧
    (analyticRequest "http://hastic"
        (fun _ : RequestObject Unit => (HttpOutcome.failure
          { xhrStatus := "complete", status := 404, statusText := "Not Found" } :
            HttpOutcome Unit))
        "GET" "/x" none initialServiceState none).result =
      RequestResult.resolved none ∧
    (analyticRequest "http://hastic"
        (fun _ : RequestObject Unit => (HttpOutcome.failure
          { xhrStatus := "complete", status := 404, statusText := "Not Found" } :
            HttpOutcome Unit))
        "GET" "/x" none initialServiceState none).svc =
      { initialServiceState with isUp := true } :=
  ⟨rfl, by decide,
   (analyticRequest_suppressed_server_error "http://hastic" _ "GET" "/x" none
      initialServiceState none
      { xhrStatus := "complete", status := 404, statusText := "Not Found" }
      rfl rfl (by decide)).1,
   (analyticRequest_suppressed_server_error "http://hastic" _ "GET" "/x" none
      initialServiceState none
      { xhrStatus := "complete", status := 404, statusText := "Not Found" }
      rfl rfl (by decide)).2.1⟩

/-- C3 counterexample: a transport error with status 500 and a completed
transport does not produce the no-connection alert and does not propagate:
the whole call resolves to `undefined` with `isUp = true`, no event emitted,
registry untouched. -/
theorem dispatcher_completed_500_counterexample :
    (analyticRequest "http://hastic"
      (fun _ : RequestObject Unit => (HttpOutcome.failure
        { xhrStatus := "complete", status := 500, statusText := "Internal Server Error" } :
          HttpOutcome Unit))
      "GET" "/analyticUnits/types" none initialServiceState none) =
      { result := RequestResult.resolved none
        svc := { initialServiceState with isUp := true }
        window := none
        events := [] } := rfl

/-- C3 amended: a completed-transport error with status exactly 500 is
suppressed — the call resolves to `undefined` with `isUp = true` and no
alert; the generic no-connection alert together with error propagation occurs
for completed transports with status strictly greater than 500 (other than
504, which gets the timeout wording). -/
theorem dispatcher_status_500_boundary {α π : Type} (dsUrl : String)
    (http : RequestObject π → HttpOutcome α) (method url : String)
    (data : Option π) (svc : ServiceState) (w : WindowState) (e : HttpError)
    (hfail : http (buildRequestObject method.toUpper (dsUrl ++ url) data) =
      HttpOutcome.failure e)
    (hcomp : e.xhrStatus = "complete") :
    (e.status = 500 →
      analyticRequest dsUrl http method url data svc w =
        { result := RequestResult.resolved none
          svc := { svc with isUp := true }
          window := w
          events := [] }) ∧
    (e.status > 500 → e.status ≠ 504 →
      (analyticRequest dsUrl http method url data svc w).result =
        RequestResult.raised none ("Fetching error: " ++ toString e.status) ∧
      (analyticRequest dsUrl http method url data svc w).svc.isUp = false ∧
      (analyticRequest dsUrl http method url data svc w).svc.hasticDatasourceStatus.message =
        String.intercalate "<br /> " (noConnectionMessage dsUrl (toString e.status)) ∧
      (lookupUrl (w.getD []) dsUrl ≠ some HasticDatasourceAvailability.NOT_AVAILABLE →
        Event.alert HasticDatasourceAvailability.NOT_AVAILABLE
          (noConnectionMessage dsUrl (toString e.status)) ∈
            (analyticRequest dsUrl http method url data svc w).events)) := by
  constructor
  · intro h500
    exact analyticRequest_suppressed_eq dsUrl http method url data svc w e hfail hcomp
      (le_of_eq h500)
  · intro hgt h504
    have hconn : e.xhrStatus ≠ "complete" ∨ e.status > 500 := Or.inr hgt
    have hnot : ¬ (e.status = 504 ∨ e.status = -1) := by
      rintro (h | h)
      · exact h504 h
      · omega
    have hmsg : connectivityAlertMessage dsUrl e =
        noConnectionMessage dsUrl (toString e.status) := by
      rw [connectivityAlertMessage, if_neg hnot]
    rw [analyticRequest_failure_eq dsUrl http method url data svc w e hfail hconn]
    refine ⟨rfl, rfl, ?_, ?_⟩
    · simp only [connectivityFailureAlert, displayConnectionAlert_status_fields, hmsg]
    · intro hne
      have hmem := displayConnectionAlert_alert_mem dsUrl
        HasticDatasourceAvailability.NOT_AVAILABLE
        (connectivityAlertMessage dsUrl e) svc.hasticDatasourceStatus w hne
      rw [hmsg] at hmem
      simpa only [connectivityFailureAlert, hmsg] using hmem

/-- C3 amended witness: the suppressed conjunct at a concrete completed 500
and the alert-and-propagate conjunct at a concrete completed 501. -/
theorem dispatcher_status_500_boundary_witness :
    (analyticRequest "http://hastic"
        (fun _ : RequestObject Unit => (HttpOutcome.failure
          { xhrStatus := "complete", status := 500, statusText := "" } :
            HttpOutcome Unit))
        "GET" "/x" none initialServiceState none =
      { result := RequestResult.resolved none
        svc := { initialServiceState with isUp := true }
        window := none
        events := [] }) ∧
    (analyticRequest "http://hastic"
        (fun _ : RequestObject Unit => (HttpOutcome.failure
          { xhrStatus := "complete", status := 501, statusText := "" } :
            HttpOutcome Unit))
        "GET" "/x" none initialServiceState none).result =
      RequestResult.raised none "Fetching error: 501" :=
  ⟨(dispatcher_status_500_boundary "http://hastic" _ "GET" "/x" none
      initialServiceState none
      { xhrStatus := "complete", status := 500, statusText := "" }
      rfl rfl).1 rfl,
   ((dispatcher_status_500_boundary "http://hastic" _ "GET" "/x" none
      initialServiceState none
      { xhrStatus := "complete", status := 501, statusText := "" }
      rfl rfl).2 (by decide) (by decide)).1⟩

/-- C4: at the failing input — a 404 response (completed transport) to the
status poll's `GET /analyticUnits/status` — the poll's fetch resolves to
`undefined`, not the `{status: '404'}` sentinel the claim (and the code's own
catch branch) promises: the dispatcher swallows the completed 404 before the
catch can see it, and the dispatcher's raised errors carry no `status` field,
so the catch's `error.status === 404` test can never fire. -/
theorem statusPoll_404_yields_undefined :
    (getStatusGeneratorFetch "http://hastic"
      (fun _ => HttpOutcome.failure
        { xhrStatus := "complete", status := 404, statusText := "Not Found" })
      "unit1" initialServiceState none) =
      { result := RequestResult.resolved none
        svc := { initialServiceState with isUp := true }
        window := none
        events := [] } := rfl

theorem analyticRequest_success_eq {α π : Type} (dsUrl : String)
    (http : RequestObject π → HttpOutcome α) (method url : String)
    (data : Option π) (svc : ServiceState) (w : WindowState) (a : α)
    (hsucc : http (buildRequestObject method.toUpper (dsUrl ++ url) data) =
      HttpOutcome.success a) :
    analyticRequest dsUrl http method url data svc w =
      ⟨RequestResult.resolved (some a), { svc with isUp := true }, w, []⟩ := by
  simp only [analyticRequest, hsucc]

theorem isDatasourceAvailable_unreachable (s : String)
    (isHSR isSup : Option ServerResponse → Bool) (supported : String)
    (http : RequestObject Unit → HttpOutcome ServerResponse) (e : HttpError)
    (svc : ServiceState) (w : WindowState)
    (hs : s ≠ "")
    (hhttp : ∀ req, http req = HttpOutcome.failure e)
    (hconn : e.xhrStatus ≠ "complete" ∨ e.status > 500) :
    isDatasourceAvailable (UrlValue.str s) isHSR isSup supported http svc w =
      ⟨false, ⟨(connectivityFailureAlert s e svc w).status, false⟩,
       (connectivityFailureAlert s e svc w).window,
       (connectivityFailureAlert s e svc w).events⟩ := by
  have hcfg : checkDatasourceConfig (UrlValue.str s) = (true, []) := by
    simp [checkDatasourceConfig, hs]
  simp only [isDatasourceAvailable, hcfg, urlValueString, getReq]
  rw [analyticRequest_failure_eq s http "GET" "/" none svc w e (hhttp _) hconn]
  simp

/-- C7: `checkDatasourceAvailability()` against an unreachable endpoint (a
configured, non-empty URL whose every request fails at the transport with an
incomplete transport or status above 500) returns `false`, leaves
`testing = false` on return — as it does on every path whatsoever — leaves
the recorded availability at `NOT_AVAILABLE`, and leaves `isUp = false`. -/
theorem checkAvailability_unreachable (s : String)
    (isHSR isSup : Option ServerResponse → Bool) (supported : String)
    (http : RequestObject Unit → HttpOutcome ServerResponse) (e : HttpError)
    (svc : ServiceState) (w : WindowState)
    (hs : s ≠ "")
    (hhttp : ∀ req, http req = HttpOutcome.failure e)
    (hconn : e.xhrStatus ≠ "complete" ∨ e.status > 500) :
    (checkDatasourceAvailability (UrlValue.str s) isHSR isSup supported http svc w).result
      = false ∧
    (checkDatasourceAvailability (UrlValue.str s) isHSR isSup supported http svc w).svc.hasticDatasourceStatus.testing
      = false ∧
    (checkDatasourceAvailability (UrlValue.str s) isHSR isSup supported http svc w).svc.hasticDatasourceStatus.availability
      = HasticDatasourceAvailability.NOT_AVAILABLE ∧
    (checkDatasourceAvailability (UrlValue.str s) isHSR isSup supported http svc w).svc.isUp
      = false ∧
    (∀ (urlv' : UrlValue) (isHSR' isSup' : Option ServerResponse → Bool)
       (sup' : String) (http' : RequestObject Unit → HttpOutcome ServerResponse)
       (svc' : ServiceState) (w' : WindowState),
      (checkDatasourceAvailability urlv' isHSR' isSup' sup' http' svc' w').svc.hasticDatasourceStatus.testing
        = false) := by
  have h1 := isDatasourceAvailable_unreachable s isHSR isSup supported http e
    { svc with hasticDatasourceStatus :=
        { svc.hasticDatasourceStatus with testing := true } } w hs hhttp hconn
  refine ⟨?_, ?_, ?_, ?_, fun _ _ _ _ _ _ _ => rfl⟩ <;>
    simp only [checkDatasourceAvailability, h1, connectivityFailureAlert,
      displayConnectionAlert_status_fields]

/-- C7 witness: a concrete unreachable probe (every transport call rejects
with xhrStatus `'error'`, status -1) returns `false` with `testing = false`
and availability `NOT_AVAILABLE`. -/
theorem checkAvailability_unreachable_witness :
    ("http://hastic" : String) ≠ "" ∧
    (checkDatasourceAvailability (UrlValue.str "http://hastic")
        (fun _ => true) (fun _ => true) "0.5.0"
        (fun _ => HttpOutcome.failure { xhrStatus := "error", status := -1, statusText := "" })
        initialServiceState none).result = false ∧
    (checkDatasourceAvailability (UrlValue.str "http://hastic")
        (fun _ => true) (fun _ => true) "0.5.0"
        (fun _ => HttpOutcome.failure { xhrStatus := "error", status := -1, statusText := "" })
        initialServiceState none).svc.hasticDatasourceStatus.testing = false ∧
    (checkDatasourceAvailability (UrlValue.str "http://hastic")
        (fun _ => true) (fun _ => true) "0.5.0"
        (fun _ => HttpOutcome.failure { xhrStatus := "error", status := -1, statusText := "" })
        initialServiceState none).svc.hasticDatasourceStatus.availability =
      HasticDatasourceAvailability.NOT_AVAILABLE :=
  ⟨by decide,
   (checkAvailability_unreachable "http://hastic" (fun _ => true) (fun _ => true)
      "0.5.0" _ { xhrStatus := "error", status := -1, statusText := "" }
      initialServiceState none (by decide) (fun _ => rfl) (Or.inl (by decide))).1,
   (checkAvailability_unreachable "http://hastic" (fun _ => true) (fun _ => true)
      "0.5.0" _ { xhrStatus := "error", status := -1, statusText := "" }
      initialServiceState none (by decide) (fun _ => rfl) (Or.inl (by decide))).2.1,
   (checkAvailability_unreachable "http://hastic" (fun _ => true) (fun _ => true)
      "0.5.0" _ { xhrStatus := "error", status := -1, statusText := "" }
      initialServiceState none (by decide) (fun _ => rfl) (Or.inl (by decide))).2.2.1⟩

/-- C8: each of the three data-contract checks raises rather than returning:
`getSegments` raises when a delivered response object lacks `segments`,
`getDetectionSpans` raises both when the response object lacks `spans` and
when the response is `undefined` (a suppressed completed ≤500 transport
error), and `updateSegments` raises when a delivered response object lacks
`addedIds`. -/
theorem missing_required_field_raises (σ : Type) (dsUrl : String)
    (svc : ServiceState) (w : WindowState) :
    (∀ (http : RequestObject SegmentsPayload → HttpOutcome SegmentsResponse)
       (resp : SegmentsResponse) (i : String) (f t : Option Int),
      (∀ req, http req = HttpOutcome.success resp) → resp.segments = none →
      (getSegments dsUrl http (some i) f t svc w).result =
        RequestResult.raised none "Server didn`t return segments array") ∧
    (∀ (http : RequestObject SpansPayload → HttpOutcome (SpansResponse σ))
       (resp : SpansResponse σ) (i : String) (f t : Int),
      (∀ req, http req = HttpOutcome.success resp) → resp.spans = none →
      (getDetectionSpans dsUrl http (some i) f t svc w).result =
        RequestResult.raised none "Server didn`t return spans array") ∧
    (∀ (http : RequestObject SpansPayload → HttpOutcome (SpansResponse σ))
       (e : HttpError) (i : String) (f t : Int),
      (∀ req, http req = HttpOutcome.failure e) →
      e.xhrStatus = "complete" → e.status ≤ 500 →
      (getDetectionSpans dsUrl http (some i) f t svc w).result =
        RequestResult.raised none "Server didn`t return spans array") ∧
    (∀ (http : RequestObject UpdateSegmentsPayload → HttpOutcome AddedIdsResponse)
       (resp : AddedIdsResponse) (i : String)
       (added removed : List AnalyticSegment),
      (∀ req, http req = HttpOutcome.success resp) → resp.addedIds = none →
      (updateSegments dsUrl http i added removed svc w).result =
        RequestResult.raised none "Server didn`t send addedIds") := by
  refine ⟨?_, ?_, ?_, ?_⟩
  · intro http resp i f t hhttp hmiss
    simp only [getSegments, getReq]
    rw [analyticRequest_success_eq dsUrl http "GET" "/segments" _ svc w resp (hhttp _)]
    simp [hmiss]
  · intro http resp i f t hhttp hmiss
    simp only [getDetectionSpans, getReq]
    rw [analyticRequest_success_eq dsUrl http "GET" "/detections/spans" _ svc w resp
      (hhttp _)]
    simp [hmiss]
  · intro http e i f t hhttp hcomp hle
    simp only [getDetectionSpans, getReq]
    rw [analyticRequest_suppressed_eq dsUrl http "GET" "/detections/spans" _ svc w e
      (hhttp _) hcomp hle]
  · intro http resp i added removed hhttp hmiss
    simp only [updateSegments, patchReq]
    rw [analyticRequest_success_eq dsUrl http "PATCH" "/segments" _ svc w resp
      (hhttp _)]
    simp [hmiss]

/-- C8 witness: concrete responses missing `segments`, `spans` (including the
suppressed-404 `undefined` response) and `addedIds` each make the
corresponding operation raise its data-contract error. -/
theorem missing_required_field_raises_witness :
    (getSegments "http://hastic"
        (fun _ => HttpOutcome.success ({ segments := none } : SegmentsResponse))
        (some "u1") none none initialServiceState none).result =
      RequestResult.raised none "Server didn`t return segments array" ∧
    (getDetectionSpans (σ := Unit) "http://hastic"
        (fun _ => HttpOutcome.success ({ spans := none } : SpansResponse Unit))
        (some "u1") 0 10 initialServiceState none).result =
      RequestResult.raised none "Server didn`t return spans array" ∧
    (getDetectionSpans (σ := Unit) "http://hastic"
        (fun _ => HttpOutcome.failure
          { xhrStatus := "complete", status := 404, statusText := "Not Found" })
        (some "u1") 0 10 initialServiceState none).result =
      RequestResult.raised none "Server didn`t return spans array" ∧
    (updateSegments "http://hastic"
        (fun _ => HttpOutcome.success ({ addedIds := none } : AddedIdsResponse))
        "u1" [] [] initialServiceState none).result =
      RequestResult.raised none "Server didn`t send addedIds" :=
  ⟨(missing_required_field_raises Unit "http://hastic" initialServiceState none).1
      _ { segments := none } "u1" none none (fun _ => rfl) rfl,
   (missing_required_field_raises Unit "http://hastic" initialServiceState none).2.1
      _ { spans := none } "u1" 0 10 (fun _ => rfl) rfl,
   (missing_required_field_raises Unit "http://hastic" initialServiceState none).2.2.1
      _ { xhrStatus := "complete", status := 404, statusText := "Not Found" }
      "u1" 0 10 (fun _ => rfl) rfl (by decide),
   (missing_required_field_raises Unit "http://hastic" initialServiceState none).2.2.2
      _ { addedIds := none } "u1" [] [] (fun _ => rfl) rfl⟩

end AnalyticSvc
